import Mathlib

/-!
Shallow embedding of the signaling-server room-coordination layer of
`webrtc-quality-optimiser`:

* `Room` / `ParticipantInfo` — `src/packages/signaling-server/src/server.ts`
  (the `Room` class, lines 499-578);
* `handleJoinMeeting` — `src/packages/signaling-server/src/websocket/handlers/joinHandler.ts`;
* `handleLeaveMeeting` — `src/unnamed/part_003` (leaveHandler.ts);
* `handleOffer` / `handleAnswer` / `handleIceCandidate` —
  `offerHandler.ts`, `answerHandler.ts`, and `server.ts` lines 581-617;
* `handleToggleAudio` / `handleToggleVideo` / `handleToggleScreenShare` —
  `mediaControlHandler.ts`.

The JavaScript `Map` of participants (keyed by socket id, insertion
ordered) is modelled as a `List ParticipantInfo`; the registry
`Map<string, Room>` as an insertion-ordered association list.  External
I/O (Prisma persistence calls, socket emissions) is modelled as a trace
of `Action`s produced by each handler, with failure of a persistence
call an explicit boolean input.  `Date` timestamps are `Nat`.  A string
field that JavaScript would test for truthiness (`!meetingId`,
`!to || !offer`) is modelled as a `String` where `""` is the falsy
value.
-/

/-- `ParticipantInfo` interface from `server.ts` (lines 499-508). -/
structure ParticipantInfo where
  socketId : String
  userId : String
  displayName : String
  isHost : Bool
  audioEnabled : Bool
  videoEnabled : Bool
  screenShareEnabled : Bool
  joinedAt : Nat
deriving DecidableEq, Repr

/-- The `Room` class from `server.ts`: a meeting id plus the participant
map, modelled as an insertion-ordered list keyed by `socketId`. -/
structure Room where
  meetingId : String
  participants : List ParticipantInfo
deriving DecidableEq, Repr

/-- `Room.addParticipant`: refuses a duplicate socket id, otherwise
appends (JS `Map.set` on a fresh key inserts at the end). -/
def Room.addParticipant (r : Room) (p : ParticipantInfo) : Room :=
  if r.participants.any (fun q => q.socketId = p.socketId) then r
  else { r with participants := r.participants ++ [p] }

/-- `Room.removeParticipant`: returns the removed participant (if any)
and the room without it. -/
def Room.removeParticipant (r : Room) (sid : String) :
    Option ParticipantInfo × Room :=
  (r.participants.find? (fun q => q.socketId = sid),
   { r with participants := r.participants.filter (fun q => q.socketId ≠ sid) })

/-- `Room.getParticipant` (lookup by socket id). -/
def Room.getParticipant (r : Room) (sid : String) : Option ParticipantInfo :=
  r.participants.find? (fun q => q.socketId = sid)

/-- `Room.getParticipantByUserId`: first participant (in insertion
order) with the given user id. -/
def Room.getParticipantByUserId (r : Room) (uid : String) :
    Option ParticipantInfo :=
  r.participants.find? (fun q => q.userId = uid)

/-- `Room.getAllParticipants`. -/
def Room.getAllParticipants (r : Room) : List ParticipantInfo :=
  r.participants

/-- `Room.getParticipantCount`. -/
def Room.getParticipantCount (r : Room) : Nat :=
  r.participants.length

/-- `Room.isEmpty`. -/
def Room.isEmpty (r : Room) : Bool :=
  r.participants.length = 0

/-- The `Partial<Pick<ParticipantInfo, media flags>>` argument of
`Room.updateParticipantMedia`: each field optionally present. -/
structure MediaPatch where
  audioEnabled : Option Bool := none
  videoEnabled : Option Bool := none
  screenShareEnabled : Option Bool := none
deriving DecidableEq, Repr

/-- `Object.assign(participant, media)`: fields present in the patch
overwrite, absent fields are untouched. -/
def applyMediaPatch (p : ParticipantInfo) (m : MediaPatch) : ParticipantInfo :=
  { p with
    audioEnabled := m.audioEnabled.getD p.audioEnabled
    videoEnabled := m.videoEnabled.getD p.videoEnabled
    screenShareEnabled := m.screenShareEnabled.getD p.screenShareEnabled }

/-- `Room.updateParticipantMedia` (`server.ts` lines 559-569): if a
participant with the socket id exists, mutate its media flags in place
and return it (post-assignment); otherwise return `undefined` and leave
the room untouched. -/
def Room.updateParticipantMedia (r : Room) (sid : String) (m : MediaPatch) :
    Option ParticipantInfo × Room :=
  match r.participants.find? (fun q => q.socketId = sid) with
  | none => (none, r)
  | some p =>
      (some (applyMediaPatch p m),
       { r with participants :=
          r.participants.map (fun q =>
            if q.socketId = sid then applyMediaPatch q m else q) })

/-- The registry `Map<string, Room>` held by the `WebSocketManager`,
as an insertion-ordered association list. -/
abbrev Registry : Type := List (String × Room)

/-- `rooms.get(meetingId)`. -/
def Registry.lookup (rooms : Registry) (mid : String) : Option Room :=
  (List.find? (fun e => e.1 = mid) rooms).map (fun e => e.2)

/-- `rooms.set(meetingId, room)`: replace in place if the key exists,
append otherwise (JS `Map` insertion order). -/
def Registry.set (rooms : Registry) (mid : String) (room : Room) : Registry :=
  if (List.find? (fun e => e.1 = mid) rooms).isSome then
    List.map (fun e => if e.1 = mid then (mid, room) else e) rooms
  else
    rooms ++ [(mid, room)]

/-- `rooms.delete(meetingId)`. -/
def Registry.erase (rooms : Registry) (mid : String) : Registry :=
  List.filter (fun e => e.1 ≠ mid) rooms

/-- The identity the gateway stashes on each socket: the socket id,
the authenticated user id, and the mutable `currentMeetingId` property
(`(socket as any).currentMeetingId`). -/
structure SocketCtx where
  sid : String
  userId : String
  currentMeetingId : Option String
deriving DecidableEq, Repr

/-- The external meeting record returned by
`MeetingService.getMeetingByMeetingId` — only the host id matters to
the join handler. -/
structure MeetingRec where
  hostId : String
deriving DecidableEq, Repr

/-- `MeetingStatus` from the Prisma schema. -/
inductive MeetingStatus
  | SCHEDULED
  | ACTIVE
  | ENDED
deriving DecidableEq, Repr

/-- Persistence-adapter calls issued by the handlers. -/
inductive PersistCall
  | addParticipantDB (meetingId userId displayName : String) (isHost : Bool)
  | removeParticipantDB (meetingId userId : String)
  | setMeetingStatus (meetingId : String) (status : MeetingStatus)
deriving DecidableEq, Repr

/-- Which media flag a toggle handler changes. -/
inductive MediaAttr
  | audio
  | video
  | screen
deriving DecidableEq, Repr

/-- Which of the three relay message kinds is being forwarded. -/
inductive RelayKind
  | offer
  | answer
  | ice
deriving DecidableEq, Repr

/-- A participant view as serialized into an emitted event.  The
`joined-meeting` self view and the `participant-joined` broadcast omit
`screenShareEnabled` (the handler literally does not copy the field),
so that field is an `Option`, `none` when absent from the object. -/
structure PView where
  socketId : String
  userId : String
  displayName : String
  isHost : Bool
  audioEnabled : Bool
  videoEnabled : Bool
  screenShareEnabled : Option Bool
deriving DecidableEq, Repr

/-- The six-field view (`socketId … videoEnabled`, no screen share). -/
def viewBasic (p : ParticipantInfo) : PView :=
  { socketId := p.socketId, userId := p.userId, displayName := p.displayName
    isHost := p.isHost, audioEnabled := p.audioEnabled
    videoEnabled := p.videoEnabled, screenShareEnabled := none }

/-- The seven-field view including `screenShareEnabled`. -/
def viewFull (p : ParticipantInfo) : PView :=
  { socketId := p.socketId, userId := p.userId, displayName := p.displayName
    isHost := p.isHost, audioEnabled := p.audioEnabled
    videoEnabled := p.videoEnabled
    screenShareEnabled := some p.screenShareEnabled }

/-- Socket emissions produced by the handlers.  `errorEvt` and
`joinedMeeting` go to one socket; the remaining events are
`socket.to(room/target).emit` broadcasts, carrying the room and the
excluded sender socket where applicable. -/
inductive OutEvent
  | errorEvt (toSocket msg : String)
  | joinedMeeting (toSocket meetingId : String) (self : PView)
      (others : List PView)
  | participantJoined (roomId exceptSocket : String) (view : PView)
  | participantReconnected (roomId exceptSocket : String) (view : PView)
  | participantLeft (roomId socketId userId displayName : String)
  | mediaChanged (roomId socketId userId : String) (attr : MediaAttr)
      (value : Bool)
  | relayMsg (kind : RelayKind) (toSocket fromSocket payload : String)
deriving DecidableEq, Repr

/-- One step of observable behaviour: an in-memory room mutation, a
persistence-adapter call being issued, or a socket emission, in program
order. -/
inductive Act
  | roomAdd (roomId : String) (p : ParticipantInfo)
  | roomRemove (roomId socketId : String)
  | persist (c : PersistCall)
  | emit (e : OutEvent)
deriving DecidableEq, Repr

/-- The outcome of a stateful handler: the new registry, the (possibly
updated) socket context, and the trace of actions in program order. -/
structure StepResult where
  rooms : Registry
  ctx : SocketCtx
  trace : List Act
deriving DecidableEq, Repr

/-- `handleJoinMeeting` from `joinHandler.ts`.  Inputs beyond the socket
context and registry: the `data` fields (`meetingId`, `displayName`,
with `""` the falsy value), the result of the external
`MeetingService.getMeetingByMeetingId` lookup, whether the
`ParticipantService.addParticipant` call fails (`dbFail`), and the
current time used for `joinedAt`. -/
def handleJoinMeeting (ctx : SocketCtx) (meetingId displayName : String)
    (meeting : Option MeetingRec) (dbFail : Bool) (now : Nat)
    (rooms : Registry) : StepResult :=
  if meetingId = "" ∨ displayName = "" then
    ⟨rooms, ctx,
     [.emit (.errorEvt ctx.sid "Meeting ID and display name are required")]⟩
  else
    match meeting with
    | none => ⟨rooms, ctx, [.emit (.errorEvt ctx.sid "Meeting not found")]⟩
    | some m =>
      let roomsRoom : Registry × Room :=
        match Registry.lookup rooms meetingId with
        | some r => (rooms, r)
        | none =>
            (Registry.set rooms meetingId ⟨meetingId, []⟩, ⟨meetingId, []⟩)
      let rooms1 := roomsRoom.1
      let room := roomsRoom.2
      match Room.getParticipantByUserId room ctx.userId with
      | some ep =>
        if ep.socketId ≠ ctx.sid then
          -- reconnection with a new socket
          let room1 := (Room.removeParticipant room ep.socketId).2
          let updated : ParticipantInfo :=
            { ep with socketId := ctx.sid, joinedAt := now }
          let room2 := Room.addParticipant room1 updated
          let rooms2 := Registry.set rooms1 meetingId room2
          let others := (Room.getAllParticipants room2).filter
            (fun p => p.socketId ≠ ctx.sid)
          ⟨rooms2, { ctx with currentMeetingId := some meetingId },
           [.roomRemove meetingId ep.socketId,
            .roomAdd meetingId updated,
            .emit (.participantReconnected meetingId ctx.sid
              (viewFull updated)),
            .emit (.joinedMeeting ctx.sid meetingId (viewBasic updated)
              (others.map viewFull))]⟩
        else
          -- same socket joining again: send current state, no mutation
          let others := (Room.getAllParticipants room).filter
            (fun p => p.socketId ≠ ctx.sid)
          ⟨rooms1, ctx,
           [.emit (.joinedMeeting ctx.sid meetingId (viewBasic ep)
             (others.map viewFull))]⟩
      | none =>
        -- fresh join
        let isHost : Bool :=
          Room.getParticipantCount room == 0 || m.hostId == ctx.userId
        let statusTrace : List Act :=
          if Room.getParticipantCount room == 0 then
            [.persist (.setMeetingStatus meetingId .ACTIVE)]
          else []
        let participant : ParticipantInfo :=
          { socketId := ctx.sid, userId := ctx.userId
            displayName := displayName, isHost := isHost
            audioEnabled := true, videoEnabled := true
            screenShareEnabled := false, joinedAt := now }
        let room1 := Room.addParticipant room participant
        let ctx2 := { ctx with currentMeetingId := some meetingId }
        let preTrace := statusTrace ++
          [.roomAdd meetingId participant,
           .persist (.addParticipantDB meetingId ctx.userId displayName
             isHost)]
        if dbFail then
          let room2 := (Room.removeParticipant room1 ctx.sid).2
          ⟨Registry.set rooms1 meetingId room2, ctx2,
           preTrace ++
            [.roomRemove meetingId ctx.sid,
             .emit (.errorEvt ctx.sid
               "Failed to join meeting - database error")]⟩
        else
          let others := (Room.getAllParticipants room1).filter
            (fun p => p.socketId ≠ ctx.sid)
          ⟨Registry.set rooms1 meetingId room1, ctx2,
           preTrace ++
            [.emit (.joinedMeeting ctx.sid meetingId (viewBasic participant)
              (others.map viewFull)),
             .emit (.participantJoined meetingId ctx.sid
               (viewBasic participant))]⟩

/-- `handleLeaveMeeting` from the leave handler (`src/unnamed/part_003`).
`removeDbFail` / `statusDbFail` model failure of the two awaited
persistence calls; on either failure the `catch` only logs, so the
remaining statements are skipped. -/
def handleLeaveMeeting (ctx : SocketCtx) (removeDbFail statusDbFail : Bool)
    (rooms : Registry) : StepResult :=
  match ctx.currentMeetingId with
  | none => ⟨rooms, ctx, []⟩
  | some meetingId =>
    match Registry.lookup rooms meetingId with
    | none => ⟨rooms, ctx, []⟩
    | some room =>
      let pr := Room.removeParticipant room ctx.sid
      let room1 := pr.2
      let rooms1 := Registry.set rooms meetingId room1
      match pr.1 with
      | none => ⟨rooms1, { ctx with currentMeetingId := none }, []⟩
      | some p =>
        let t1 : List Act :=
          [.roomRemove meetingId ctx.sid,
           .persist (.removeParticipantDB meetingId ctx.userId)]
        if removeDbFail then ⟨rooms1, ctx, t1⟩
        else
          let t2 := t1 ++
            [.emit (.participantLeft meetingId ctx.sid p.userId
              p.displayName)]
          if Room.isEmpty room1 then
            let t3 := t2 ++ [.persist (.setMeetingStatus meetingId .ENDED)]
            if statusDbFail then ⟨rooms1, ctx, t3⟩
            else ⟨Registry.erase rooms1 meetingId,
                  { ctx with currentMeetingId := none }, t3⟩
          else ⟨rooms1, { ctx with currentMeetingId := none }, t2⟩

/-- The per-kind `Invalid … data` error message. -/
def relayErrorMsg : RelayKind → String
  | .offer => "Invalid offer data"
  | .answer => "Invalid answer data"
  | .ice => "Invalid ICE candidate data"

/-- Common body of `handleOffer`, `handleAnswer` and
`handleIceCandidate`: the three handlers are textually identical up to
the message kind and error strings.  The registry is never mutated, so
only the action trace is returned. -/
def handleRelay (kind : RelayKind) (ctx : SocketCtx) (target payload : String)
    (rooms : Registry) : List Act :=
  match ctx.currentMeetingId with
  | none => [.emit (.errorEvt ctx.sid "Not in a meeting")]
  | some meetingId =>
    if target = "" ∨ payload = "" then
      [.emit (.errorEvt ctx.sid (relayErrorMsg kind))]
    else
      match Registry.lookup rooms meetingId with
      | none => [.emit (.errorEvt ctx.sid "Room not found")]
      | some _ => [.emit (.relayMsg kind target ctx.sid payload)]

/-- `handleOffer` from `offerHandler.ts`. -/
def handleOffer (ctx : SocketCtx) (target payload : String) (rooms : Registry) :
    List Act :=
  handleRelay .offer ctx target payload rooms

/-- `handleAnswer` from `answerHandler.ts`. -/
def handleAnswer (ctx : SocketCtx) (target payload : String) (rooms : Registry) :
    List Act :=
  handleRelay .answer ctx target payload rooms

/-- `handleIceCandidate` (`server.ts` lines 581-617). -/
def handleIceCandidate (ctx : SocketCtx) (target payload : String)
    (rooms : Registry) : List Act :=
  handleRelay .ice ctx target payload rooms

/-- The singleton media patch each toggle handler passes to
`Room.updateParticipantMedia`. -/
def attrPatch : MediaAttr → Bool → MediaPatch
  | .audio, b => { audioEnabled := some b }
  | .video, b => { videoEnabled := some b }
  | .screen, b => { screenShareEnabled := some b }

/-- Common body of `handleToggleAudio` / `handleToggleVideo` /
`handleToggleScreenShare` from `mediaControlHandler.ts`: the three are
textually identical up to the flag touched.  The socket context is
never changed. -/
def handleToggleMedia (attr : MediaAttr) (ctx : SocketCtx) (enabled : Bool)
    (rooms : Registry) : Registry × List Act :=
  match ctx.currentMeetingId with
  | none => (rooms, [.emit (.errorEvt ctx.sid "Not in a meeting")])
  | some meetingId =>
    match Registry.lookup rooms meetingId with
    | none => (rooms, [.emit (.errorEvt ctx.sid "Room not found")])
    | some room =>
      let pr := Room.updateParticipantMedia room ctx.sid
        (attrPatch attr enabled)
      let rooms1 := Registry.set rooms meetingId pr.2
      match pr.1 with
      | none => (rooms1, [])
      | some p =>
          (rooms1,
           [.emit (.mediaChanged meetingId ctx.sid p.userId attr enabled)])

/-- `handleToggleAudio`. -/
def handleToggleAudio (ctx : SocketCtx) (enabled : Bool) (rooms : Registry) :
    Registry × List Act :=
  handleToggleMedia .audio ctx enabled rooms

/-- `handleToggleVideo`. -/
def handleToggleVideo (ctx : SocketCtx) (enabled : Bool) (rooms : Registry) :
    Registry × List Act :=
  handleToggleMedia .video ctx enabled rooms

/-- `handleToggleScreenShare`. -/
def handleToggleScreenShare (ctx : SocketCtx) (enabled : Bool)
    (rooms : Registry) : Registry × List Act :=
  handleToggleMedia .screen ctx enabled rooms

/-- The room the join handler operates on: the registered room if the
meeting id is known, a fresh empty room otherwise. -/
def joinRoomView (rooms : Registry) (mid : String) : Room :=
  match Registry.lookup rooms mid with
  | some r => r
  | none => ⟨mid, []⟩

/-- The registry after the get-or-create step of the join handler. -/
def joinRooms1 (rooms : Registry) (mid : String) : Registry :=
  match Registry.lookup rooms mid with
  | some _ => rooms
  | none => Registry.set rooms mid ⟨mid, []⟩

/-- The `ParticipantInfo` a fresh join constructs. -/
def freshParticipant (ctx : SocketCtx) (dn : String) (m : MeetingRec)
    (room : Room) (now : Nat) : ParticipantInfo :=
  { socketId := ctx.sid, userId := ctx.userId, displayName := dn
    isHost := Room.getParticipantCount room == 0 || m.hostId == ctx.userId
    audioEnabled := true, videoEnabled := true
    screenShareEnabled := false, joinedAt := now }

/-- Socket emissions contained in a trace, in order. -/
def emitsOf (t : List Act) : List OutEvent :=
  t.filterMap (fun a => match a with | .emit e => some e | _ => none)

/-- Single-field update of a media flag: what one toggle call amounts
to on a participant record. -/
def mediaSet (attr : MediaAttr) (b : Bool) (q : ParticipantInfo) :
    ParticipantInfo :=
  match attr with
  | .audio => { q with audioEnabled := b }
  | .video => { q with videoEnabled := b }
  | .screen => { q with screenShareEnabled := b }

/-- Whether an action is an in-memory room registration. -/
def Act.isRoomAdd : Act → Bool
  | .roomAdd _ _ => true
  | _ => false

/-- Whether an action issues the durable participant-record write. -/
def Act.isPersistAddParticipant : Act → Bool
  | .persist (.addParticipantDB _ _ _ _) => true
  | _ => false

/-- Whether an action issues a meeting-status transition to `st`. -/
def Act.isPersistSetStatus (st : MeetingStatus) : Act → Bool
  | .persist (.setMeetingStatus _ st2) => st2 == st
  | _ => false

/-- Whether an action emits a `participant-joined` broadcast. -/
def Act.isParticipantJoined : Act → Bool
  | .emit (.participantJoined _ _ _) => true
  | _ => false

/-- Whether an action emits a `participant-reconnected` broadcast. -/
def Act.isParticipantReconnected : Act → Bool
  | .emit (.participantReconnected _ _ _) => true
  | _ => false

theorem Registry.lookup_set (rooms : Registry) (mid : String) (room : Room) :
    Registry.lookup (Registry.set rooms mid room) mid = some room := by
  simp only [Registry.lookup, Registry.set]
  by_cases hs : (List.find? (fun e => decide (e.1 = mid)) rooms).isSome
  · rw [if_pos hs]
    obtain ⟨a, ha⟩ := Option.isSome_iff_exists.mp hs
    have hpa : a.1 = mid := by simpa using List.find?_some ha
    have hpred :
        ((fun e : String × Room => decide (e.1 = mid)) ∘
          (fun e => if e.1 = mid then (mid, room) else e)) =
        (fun e : String × Room => decide (e.1 = mid)) := by
      funext e
      by_cases he : e.1 = mid <;> simp [he]
    rw [List.find?_map, hpred, ha]
    simp [hpa]
  · rw [if_neg hs, List.find?_append,
      Option.not_isSome_iff_eq_none.mp hs]
    simp

theorem Registry.lookup_erase (rooms : Registry) (mid : String) :
    Registry.lookup (Registry.erase rooms mid) mid = none := by
  simp only [Registry.lookup, Registry.erase]
  rw [List.find?_eq_none.mpr]
  · rfl
  · intro x hx
    have hq := List.of_mem_filter hx
    simp only [decide_eq_true_eq] at hq ⊢
    simpa using hq

theorem Registry.set_self (rooms : Registry) (mid : String) (room : Room)
    (h : Registry.lookup rooms mid = some room)
    (hnd : (rooms.map Prod.fst).Nodup) :
    Registry.set rooms mid room = rooms := by
  simp only [Registry.lookup] at h
  obtain ⟨a, ha, ha2⟩ : ∃ a, List.find? (fun e => decide (e.1 = mid)) rooms
      = some a ∧ a.2 = room := by
    cases hfa : List.find? (fun e => decide (e.1 = mid)) rooms with
    | none => rw [hfa] at h; simp at h
    | some a => rw [hfa] at h; exact ⟨a, rfl, by simpa using h⟩
  have hamem : a ∈ rooms := List.mem_of_find?_eq_some ha
  have hakey : a.1 = mid := by simpa using List.find?_some ha
  simp only [Registry.set, ha, Option.isSome_some, if_true]
  have hinj := List.inj_on_of_nodup_map hnd
  have : ∀ e ∈ rooms, (if e.1 = mid then (mid, room) else e) = e := by
    intro e he
    by_cases hke : e.1 = mid
    · have : e = a := hinj he hamem (by rw [hke, hakey])
      subst this
      rw [if_pos hke, ← hke, ← ha2]
    · rw [if_neg hke]
  calc List.map (fun e => if e.1 = mid then (mid, room) else e) rooms
      = List.map id rooms := List.map_congr_left this
    _ = rooms := List.map_id rooms

theorem handleJoin_fresh_eq (ctx : SocketCtx) (mid dn : String)
    (m : MeetingRec) (dbFail : Bool) (now : Nat) (rooms : Registry)
    (hmid : ¬ mid = "") (hdn : ¬ dn = "")
    (hfresh : Room.getParticipantByUserId (joinRoomView rooms mid)
      ctx.userId = none) :
    handleJoinMeeting ctx mid dn (some m) dbFail now rooms =
      (let room := joinRoomView rooms mid
       let rooms1 := joinRooms1 rooms mid
       let participant := freshParticipant ctx dn m room now
       let room1 := Room.addParticipant room participant
       let ctx2 := { ctx with currentMeetingId := some mid }
       let preTrace : List Act :=
         (if Room.getParticipantCount room == 0 then
            [.persist (.setMeetingStatus mid .ACTIVE)] else []) ++
         [.roomAdd mid participant,
          .persist (.addParticipantDB mid ctx.userId dn participant.isHost)]
       if dbFail then
         ⟨Registry.set rooms1 mid (Room.removeParticipant room1 ctx.sid).2,
          ctx2,
          preTrace ++ [.roomRemove mid ctx.sid,
            .emit (.errorEvt ctx.sid
              "Failed to join meeting - database error")]⟩
       else
         ⟨Registry.set rooms1 mid room1, ctx2,
          preTrace ++
           [.emit (.joinedMeeting ctx.sid mid (viewBasic participant)
             (((Room.getAllParticipants room1).filter
                (fun p => p.socketId ≠ ctx.sid)).map viewFull)),
            .emit (.participantJoined mid ctx.sid
              (viewBasic participant))]⟩) := by
  have h1 : ¬ (mid = "" ∨ dn = "") := by tauto
  unfold handleJoinMeeting freshParticipant
  rw [if_neg h1]
  unfold joinRoomView at hfresh
  unfold joinRoomView joinRooms1
  cases hlk : Registry.lookup rooms mid with
  | some r =>
      simp only [hlk] at hfresh ⊢
      rw [hfresh]
  | none =>
      simp only [hlk] at hfresh ⊢
      rw [hfresh]

theorem handleJoin_reconnect_eq (ctx : SocketCtx) (mid dn : String)
    (m : MeetingRec) (dbFail : Bool) (now : Nat) (rooms : Registry)
    (ep : ParticipantInfo)
    (hmid : ¬ mid = "") (hdn : ¬ dn = "")
    (hep : Room.getParticipantByUserId (joinRoomView rooms mid)
      ctx.userId = some ep)
    (hne : ¬ ep.socketId = ctx.sid) :
    handleJoinMeeting ctx mid dn (some m) dbFail now rooms =
      (let room := joinRoomView rooms mid
       let updated : ParticipantInfo :=
         { ep with socketId := ctx.sid, joinedAt := now }
       let room2 :=
         Room.addParticipant (Room.removeParticipant room ep.socketId).2
           updated
       ⟨Registry.set (joinRooms1 rooms mid) mid room2,
        { ctx with currentMeetingId := some mid },
        [.roomRemove mid ep.socketId,
         .roomAdd mid updated,
         .emit (.participantReconnected mid ctx.sid (viewFull updated)),
         .emit (.joinedMeeting ctx.sid mid (viewBasic updated)
           (((Room.getAllParticipants room2).filter
              (fun p => p.socketId ≠ ctx.sid)).map viewFull))]⟩) := by
  have h1 : ¬ (mid = "" ∨ dn = "") := by tauto
  unfold handleJoinMeeting
  rw [if_neg h1]
  unfold joinRoomView at hep
  unfold joinRoomView joinRooms1
  cases hlk : Registry.lookup rooms mid with
  | some r =>
      simp only [hlk] at hep ⊢
      simp only [hep]
      rw [if_pos hne]
  | none =>
      simp only [hlk] at hep
      simp [Room.getParticipantByUserId] at hep

theorem handleJoin_rejoin_eq (ctx : SocketCtx) (mid dn : String)
    (m : MeetingRec) (dbFail : Bool) (now : Nat) (rooms : Registry)
    (ep : ParticipantInfo)
    (hmid : ¬ mid = "") (hdn : ¬ dn = "")
    (hep : Room.getParticipantByUserId (joinRoomView rooms mid)
      ctx.userId = some ep)
    (heq : ep.socketId = ctx.sid) :
    handleJoinMeeting ctx mid dn (some m) dbFail now rooms =
      ⟨joinRooms1 rooms mid, ctx,
       [.emit (.joinedMeeting ctx.sid mid (viewBasic ep)
         ((((joinRoomView rooms mid).getAllParticipants).filter
            (fun p => p.socketId ≠ ctx.sid)).map viewFull))]⟩ := by
  have h1 : ¬ (mid = "" ∨ dn = "") := by tauto
  unfold handleJoinMeeting
  rw [if_neg h1]
  unfold joinRoomView at hep
  unfold joinRoomView joinRooms1
  cases hlk : Registry.lookup rooms mid with
  | some r =>
      simp only [hlk] at hep ⊢
      simp only [hep]
      rw [if_neg (by simp [heq])]
  | none =>
      simp only [hlk] at hep
      simp [Room.getParticipantByUserId] at hep

theorem Room.addParticipant_of_fresh (room : Room) (p : ParticipantInfo)
    (hsid : ∀ q ∈ room.participants, ¬ q.socketId = p.socketId) :
    Room.addParticipant room p =
      { room with participants := room.participants ++ [p] } := by
  unfold Room.addParticipant
  rw [if_neg]
  simp only [List.any_eq_true, decide_eq_true_eq]
  rintro ⟨q, hq, hqs⟩
  exact hsid q hq hqs

theorem List.find?_sid_append_last (l : List ParticipantInfo)
    (p : ParticipantInfo) (sid : String)
    (hsid : ∀ q ∈ l, ¬ q.socketId = sid) (hp : p.socketId = sid) :
    List.find? (fun q => q.socketId = sid) (l ++ [p]) = some p := by
  rw [List.find?_append, List.find?_eq_none.mpr
    (fun x hx => by simpa using hsid x hx)]
  simp [hp]

/-- C1, counterexample.  Meeting `R` is externally recorded with host
user `u2`.  User `u1` joins the empty room first and is made host (zero
participants); then `u2` joins and is also made host (host-id match):
the room ends with two participants both carrying `isHost = true`, so
host uniqueness fails. -/
theorem C1_counterexample :
    (Registry.lookup
        (handleJoinMeeting ⟨"s2", "u2", none⟩ "R" "Bob" (some ⟨"u2"⟩)
          false 2
          (handleJoinMeeting ⟨"s1", "u1", none⟩ "R" "Alice" (some ⟨"u2"⟩)
            false 1 []).rooms).rooms "R").map
      (fun r => r.participants.map (fun p => (p.userId, p.isHost)))
      = some [("u1", true), ("u2", true)] := by
  decide

/-- C1, amended: for every successful fresh join, the joiner is
assigned `isHost = true` exactly when the room had zero participants at
join time or the joiner's userId equals the externally recorded host
id.  Because both disjuncts can be satisfied by different users of the
same room, two participants may simultaneously carry `isHost = true`
(see the counterexample); per-room host uniqueness does not hold. -/
theorem C1_host_assignment (ctx : SocketCtx) (mid dn : String)
    (m : MeetingRec) (now : Nat) (rooms : Registry)
    (hmid : ¬ mid = "") (hdn : ¬ dn = "")
    (hfresh : Room.getParticipantByUserId (joinRoomView rooms mid)
      ctx.userId = none)
    (hsid : ∀ q ∈ (joinRoomView rooms mid).participants,
      ¬ q.socketId = ctx.sid) :
    ∃ room1,
      Registry.lookup
        (handleJoinMeeting ctx mid dn (some m) false now rooms).rooms mid
        = some room1 ∧
      Room.getParticipant room1 ctx.sid = some
        { socketId := ctx.sid, userId := ctx.userId, displayName := dn
          isHost := (Room.getParticipantCount (joinRoomView rooms mid) == 0
            || m.hostId == ctx.userId)
          audioEnabled := true, videoEnabled := true
          screenShareEnabled := false, joinedAt := now } := by
  rw [handleJoin_fresh_eq ctx mid dn m false now rooms hmid hdn hfresh]
  simp only [Bool.false_eq_true, if_false]
  refine ⟨_, Registry.lookup_set _ _ _, ?_⟩
  rw [Room.addParticipant_of_fresh _ _ (by
    intro q hq
    exact hsid q hq)]
  unfold Room.getParticipant
  exact List.find?_sid_append_last _ _ _ hsid rfl

/-- C1 witness: a fresh join into an empty room for meeting `R`
(designated host `u2`) makes `u1` the host. -/
theorem C1_host_assignment_witness :
    ∃ room1,
      Registry.lookup
        (handleJoinMeeting ⟨"s1", "u1", none⟩ "R" "Alice" (some ⟨"u2"⟩)
          false 1 []).rooms "R" = some room1 ∧
      Room.getParticipant room1 "s1" = some
        ⟨"s1", "u1", "Alice", true, true, true, false, 1⟩ :=
  C1_host_assignment ⟨"s1", "u1", none⟩ "R" "Alice" ⟨"u2"⟩ 1 []
    (by decide) (by decide) (by decide)
    (by intro q hq; simp [joinRoomView, Registry.lookup] at hq)

/-- C2, counterexample.  For the first participant of a room the
handler issues the meeting-status transition to ACTIVE *before*
registering the participant in the in-memory room: the trace of a first
fresh join starts with the `setMeetingStatus ACTIVE` persistence call,
and the `roomAdd` registration only comes second. -/
theorem C2_counterexample :
    (handleJoinMeeting ⟨"s1", "u1", none⟩ "R" "Alice" (some ⟨"u1"⟩)
        false 1 []).trace =
      [Act.persist (.setMeetingStatus "R" .ACTIVE),
       Act.roomAdd "R" ⟨"s1", "u1", "Alice", true, true, true, false, 1⟩,
       Act.persist (.addParticipantDB "R" "u1" "Alice" true),
       Act.emit (.joinedMeeting "s1" "R"
         ⟨"s1", "u1", "Alice", true, true, true, none⟩ []),
       Act.emit (.participantJoined "R" "s1"
         ⟨"s1", "u1", "Alice", true, true, true, none⟩)] := by
  decide

/-- C2, amended: during a fresh join the new participant is registered
in the in-memory room strictly before the durable participant-record
write is issued; but for the first participant of a room the meeting
status transition to ACTIVE is issued strictly before the in-memory
registration, not after it. -/
theorem C2_join_order (ctx : SocketCtx) (mid dn : String) (m : MeetingRec)
    (dbFail : Bool) (now : Nat) (rooms : Registry)
    (hmid : ¬ mid = "") (hdn : ¬ dn = "")
    (hfresh : Room.getParticipantByUserId (joinRoomView rooms mid)
      ctx.userId = none) :
    (∃ i j,
      (handleJoinMeeting ctx mid dn (some m) dbFail now rooms).trace.findIdx?
          Act.isRoomAdd = some i ∧
      (handleJoinMeeting ctx mid dn (some m) dbFail now rooms).trace.findIdx?
          Act.isPersistAddParticipant = some j ∧
      i < j) ∧
    (Room.getParticipantCount (joinRoomView rooms mid) = 0 →
      ∃ k i,
        (handleJoinMeeting ctx mid dn (some m) dbFail now rooms).trace.findIdx?
            (Act.isPersistSetStatus MeetingStatus.ACTIVE) = some k ∧
        (handleJoinMeeting ctx mid dn (some m) dbFail now rooms).trace.findIdx?
            Act.isRoomAdd = some i ∧
        k < i) := by
  rw [handleJoin_fresh_eq ctx mid dn m dbFail now rooms hmid hdn hfresh]
  by_cases hcnt : Room.getParticipantCount (joinRoomView rooms mid) = 0
  · cases dbFail <;>
      simp [hcnt, List.findIdx?_cons, Act.isRoomAdd,
        Act.isPersistAddParticipant, Act.isPersistSetStatus]
  · have hcnt2 : (Room.getParticipantCount (joinRoomView rooms mid) == 0)
        = false := by
      simpa using hcnt
    cases dbFail <;>
      simp [hcnt2, hcnt, List.findIdx?_cons, Act.isRoomAdd,
        Act.isPersistAddParticipant, Act.isPersistSetStatus]

/-- C2 witness: a second (non-first) fresh join into a room that
already has one member registers in the room before the participant
write; the numeric indices confirm the ordering. -/
theorem C2_join_order_witness :
    (∃ i j,
      (handleJoinMeeting ⟨"s2", "u2", none⟩ "R" "Bob" (some ⟨"u1"⟩)
          false 2
          [("R", ⟨"R", [⟨"s1", "u1", "Alice", true, true, true, false, 1⟩]⟩)]
        ).trace.findIdx? Act.isRoomAdd = some i ∧
      (handleJoinMeeting ⟨"s2", "u2", none⟩ "R" "Bob" (some ⟨"u1"⟩)
          false 2
          [("R", ⟨"R", [⟨"s1", "u1", "Alice", true, true, true, false, 1⟩]⟩)]
        ).trace.findIdx? Act.isPersistAddParticipant = some j ∧
      i < j) ∧
    (Room.getParticipantCount
        (joinRoomView
          [("R", ⟨"R", [⟨"s1", "u1", "Alice", true, true, true, false, 1⟩]⟩)]
          "R") = 0 →
      ∃ k i,
        (handleJoinMeeting ⟨"s2", "u2", none⟩ "R" "Bob" (some ⟨"u1"⟩)
            false 2
            [("R", ⟨"R", [⟨"s1", "u1", "Alice", true, true, true, false, 1⟩]⟩)]
          ).trace.findIdx? (Act.isPersistSetStatus MeetingStatus.ACTIVE)
            = some k ∧
        (handleJoinMeeting ⟨"s2", "u2", none⟩ "R" "Bob" (some ⟨"u1"⟩)
            false 2
            [("R", ⟨"R", [⟨"s1", "u1", "Alice", true, true, true, false, 1⟩]⟩)]
          ).trace.findIdx? Act.isRoomAdd = some i ∧
        k < i) :=
  C2_join_order ⟨"s2", "u2", none⟩ "R" "Bob" ⟨"u1"⟩ false 2
    [("R", ⟨"R", [⟨"s1", "u1", "Alice", true, true, true, false, 1⟩]⟩)]
    (by decide) (by decide) (by decide)

/-- C3: for every fresh join whose durable participant write fails,
the speculatively-added participant is removed again — the room's
participant list afterwards equals the list the handler found, no
participant with the joiner's connection id remains — and the only
socket emission of the whole operation is the error event to the
joining connection itself: no `joined-meeting` and no
`participant-joined` event is emitted. -/
theorem C3_join_rollback (ctx : SocketCtx) (mid dn : String)
    (m : MeetingRec) (now : Nat) (rooms : Registry)
    (hmid : ¬ mid = "") (hdn : ¬ dn = "")
    (hfresh : Room.getParticipantByUserId (joinRoomView rooms mid)
      ctx.userId = none)
    (hsid : ∀ q ∈ (joinRoomView rooms mid).participants,
      ¬ q.socketId = ctx.sid) :
    ∃ room1,
      Registry.lookup
        (handleJoinMeeting ctx mid dn (some m) true now rooms).rooms mid
        = some room1 ∧
      room1.participants = (joinRoomView rooms mid).participants ∧
      Room.getParticipant room1 ctx.sid = none ∧
      emitsOf (handleJoinMeeting ctx mid dn (some m) true now rooms).trace
        = [.errorEvt ctx.sid "Failed to join meeting - database error"] := by
  rw [handleJoin_fresh_eq ctx mid dn m true now rooms hmid hdn hfresh]
  simp only [if_true]
  refine ⟨_, Registry.lookup_set _ _ _, ?_, ?_, ?_⟩
  · rw [Room.addParticipant_of_fresh _ _ (fun q hq => hsid q hq)]
    unfold Room.removeParticipant
    simp only [List.filter_append]
    rw [List.filter_eq_self.mpr (fun q hq => by simpa using hsid q hq)]
    simp [freshParticipant]
  · rw [Room.addParticipant_of_fresh _ _ (fun q hq => hsid q hq)]
    unfold Room.removeParticipant Room.getParticipant
    simp only [List.find?_eq_none]
    intro x hx
    have := List.of_mem_filter hx
    simpa using this
  · by_cases hcnt : (Room.getParticipantCount (joinRoomView rooms mid) == 0)
        = true <;>
      simp [hcnt, emitsOf]

/-- C3 witness: a failing join of `u2` into a room holding `u1` rolls
back to the one-member room and emits only the database error. -/
theorem C3_join_rollback_witness :
    ∃ room1,
      Registry.lookup
        (handleJoinMeeting ⟨"s2", "u2", none⟩ "R" "Bob" (some ⟨"u1"⟩)
          true 2
          [("R", ⟨"R", [⟨"s1", "u1", "Alice", true, true, true, false, 1⟩]⟩)]
        ).rooms "R" = some room1 ∧
      room1.participants =
        (joinRoomView
          [("R", ⟨"R", [⟨"s1", "u1", "Alice", true, true, true, false, 1⟩]⟩)]
          "R").participants ∧
      Room.getParticipant room1 "s2" = none ∧
      emitsOf (handleJoinMeeting ⟨"s2", "u2", none⟩ "R" "Bob" (some ⟨"u1"⟩)
          true 2
          [("R", ⟨"R", [⟨"s1", "u1", "Alice", true, true, true, false, 1⟩]⟩)]
        ).trace
        = [.errorEvt "s2" "Failed to join meeting - database error"] :=
  C3_join_rollback ⟨"s2", "u2", none⟩ "R" "Bob" ⟨"u1"⟩ 2
    [("R", ⟨"R", [⟨"s1", "u1", "Alice", true, true, true, false, 1⟩]⟩)]
    (by decide) (by decide) (by decide) (by decide)

/-- C4, counterexample.  A fresh first join whose participant write
fails leaves the newly created room in the registry with zero
participants: the registry is not empty and maps `R` to an empty room,
violating "a room exists in the registry iff it has at least one
participant" after a failed join. -/
theorem C4_counterexample :
    (handleJoinMeeting ⟨"s1", "u1", none⟩ "R" "Alice" (some ⟨"u1"⟩)
        true 1 []).rooms = [("R", ⟨"R", []⟩)] := by
  decide

/-- C4, amended: a room emptied by a fully successful leave is removed
from the registry before the operation returns; but a fresh join whose
persistence write fails (and a leave whose persistence calls fail) can
leave a zero-participant room in the registry, so the biconditional
does not hold after every operation. -/
theorem C4_leave_removes_empty_room (ctx : SocketCtx) (mid : String)
    (rooms : Registry) (room : Room) (p : ParticipantInfo)
    (hcm : ctx.currentMeetingId = some mid)
    (hlk : Registry.lookup rooms mid = some room)
    (hp : Room.getParticipant room ctx.sid = some p)
    (hempty : room.participants.filter (fun q => q.socketId ≠ ctx.sid)
      = []) :
    Registry.lookup (handleLeaveMeeting ctx false false rooms).rooms mid
      = none ∧
    (handleLeaveMeeting ctx false false rooms).ctx.currentMeetingId
      = none ∧
    Act.persist (.setMeetingStatus mid .ENDED)
      ∈ (handleLeaveMeeting ctx false false rooms).trace := by
  unfold handleLeaveMeeting
  simp only [hcm, hlk]
  unfold Room.removeParticipant
  have hp2 : room.participants.find?
      (fun q => decide (q.socketId = ctx.sid)) = some p := hp
  simp only [hp2, hempty, Room.isEmpty]
  simp [Registry.lookup_erase]

/-- C4 witness: a fully successful leave by the sole member of `R`
removes `R` from the registry, requests ENDED, and detaches. -/
theorem C4_leave_removes_empty_room_witness :
    Registry.lookup (handleLeaveMeeting ⟨"s1", "u1", some "R"⟩ false false
        [("R", ⟨"R", [⟨"s1", "u1", "Alice", true, true, true, false, 1⟩]⟩)]
      ).rooms "R" = none ∧
    (handleLeaveMeeting ⟨"s1", "u1", some "R"⟩ false false
        [("R", ⟨"R", [⟨"s1", "u1", "Alice", true, true, true, false, 1⟩]⟩)]
      ).ctx.currentMeetingId = none ∧
    Act.persist (.setMeetingStatus "R" .ENDED)
      ∈ (handleLeaveMeeting ⟨"s1", "u1", some "R"⟩ false false
        [("R", ⟨"R", [⟨"s1", "u1", "Alice", true, true, true, false, 1⟩]⟩)]
      ).trace :=
  C4_leave_removes_empty_room ⟨"s1", "u1", some "R"⟩ "R"
    [("R", ⟨"R", [⟨"s1", "u1", "Alice", true, true, true, false, 1⟩]⟩)]
    ⟨"R", [⟨"s1", "u1", "Alice", true, true, true, false, 1⟩]⟩
    ⟨"s1", "u1", "Alice", true, true, true, false, 1⟩
    (by decide) (by decide) (by decide) (by decide)

/-- C5, counterexample.  The sole member of `R` leaves while the
persistence update fails: the participant is removed from the room,
but no `participant-left` broadcast is emitted, the emptied room stays
in the registry with no ENDED transition, and the connection keeps its
room association — the leave does not complete as claimed. -/
theorem C5_counterexample :
    handleLeaveMeeting ⟨"s1", "u1", some "R"⟩ true false
        [("R", ⟨"R", [⟨"s1", "u1", "Alice", true, true, true, false, 1⟩]⟩)]
      = ⟨[("R", ⟨"R", []⟩)], ⟨"s1", "u1", some "R"⟩,
         [Act.roomRemove "R" "s1",
          Act.persist (.removeParticipantDB "R" "u1")]⟩ := by
  decide

/-- C5, amended: a leave whose persistence update fails still removes
the participant from the in-memory room, but everything after the
failed call is skipped: no `participant-left` broadcast is emitted, an
emptied room is not removed from the registry and gets no ENDED
transition, and the connection keeps its room association.  The full
completion happens only when the persistence calls succeed. -/
theorem C5_leave_persistence (ctx : SocketCtx) (mid : String)
    (rooms : Registry) (room : Room) (p : ParticipantInfo)
    (hcm : ctx.currentMeetingId = some mid)
    (hlk : Registry.lookup rooms mid = some room)
    (hp : Room.getParticipant room ctx.sid = some p) :
    Registry.lookup (handleLeaveMeeting ctx true false rooms).rooms mid
      = some (Room.removeParticipant room ctx.sid).2 ∧
    Room.getParticipant (Room.removeParticipant room ctx.sid).2 ctx.sid
      = none ∧
    (handleLeaveMeeting ctx true false rooms).ctx = ctx ∧
    (handleLeaveMeeting ctx true false rooms).trace
      = [Act.roomRemove mid ctx.sid,
         Act.persist (.removeParticipantDB mid ctx.userId)] := by
  unfold handleLeaveMeeting
  simp only [hcm, hlk]
  have hp2 : room.participants.find?
      (fun q => decide (q.socketId = ctx.sid)) = some p := hp
  unfold Room.removeParticipant
  simp only [hp2, if_true]
  refine ⟨Registry.lookup_set _ _ _, ?_, by trivial, by trivial⟩
  unfold Room.getParticipant
  simp only [List.find?_eq_none]
  intro x hx
  have := List.of_mem_filter hx
  simpa using this

/-- C5 witness: the concrete failing leave of the sole member of `R`.
-/
theorem C5_leave_persistence_witness :
    Registry.lookup (handleLeaveMeeting ⟨"s1", "u1", some "R"⟩ true false
        [("R", ⟨"R", [⟨"s1", "u1", "Alice", true, true, true, false, 1⟩]⟩)]
      ).rooms "R"
      = some (Room.removeParticipant
          ⟨"R", [⟨"s1", "u1", "Alice", true, true, true, false, 1⟩]⟩
          "s1").2 ∧
    Room.getParticipant (Room.removeParticipant
        ⟨"R", [⟨"s1", "u1", "Alice", true, true, true, false, 1⟩]⟩
        "s1").2 "s1" = none ∧
    (handleLeaveMeeting ⟨"s1", "u1", some "R"⟩ true false
        [("R", ⟨"R", [⟨"s1", "u1", "Alice", true, true, true, false, 1⟩]⟩)]
      ).ctx = ⟨"s1", "u1", some "R"⟩ ∧
    (handleLeaveMeeting ⟨"s1", "u1", some "R"⟩ true false
        [("R", ⟨"R", [⟨"s1", "u1", "Alice", true, true, true, false, 1⟩]⟩)]
      ).trace
      = [Act.roomRemove "R" "s1",
         Act.persist (.removeParticipantDB "R" "u1")] :=
  C5_leave_persistence ⟨"s1", "u1", some "R"⟩ "R"
    [("R", ⟨"R", [⟨"s1", "u1", "Alice", true, true, true, false, 1⟩]⟩)]
    ⟨"R", [⟨"s1", "u1", "Alice", true, true, true, false, 1⟩]⟩
    ⟨"s1", "u1", "Alice", true, true, true, false, 1⟩
    (by decide) (by decide) (by decide)

/-- C6: a join for a userId that is already in the room under a
different connection id removes the old participant and installs one
under the new connection id that keeps userId, displayName, isHost and
all three media flags, with a fresh join timestamp; the trace contains
a `participant-reconnected` broadcast and no `participant-joined`
broadcast. -/
theorem C6_reconnect (ctx : SocketCtx) (mid dn : String) (m : MeetingRec)
    (dbFail : Bool) (now : Nat) (rooms : Registry) (ep : ParticipantInfo)
    (hmid : ¬ mid = "") (hdn : ¬ dn = "")
    (hep : Room.getParticipantByUserId (joinRoomView rooms mid)
      ctx.userId = some ep)
    (hne : ¬ ep.socketId = ctx.sid)
    (hsid : ∀ q ∈ (joinRoomView rooms mid).participants,
      ¬ q.socketId = ctx.sid) :
    ∃ room2,
      Registry.lookup
        (handleJoinMeeting ctx mid dn (some m) dbFail now rooms).rooms mid
        = some room2 ∧
      Room.getParticipant room2 ep.socketId = none ∧
      Room.getParticipant room2 ctx.sid
        = some { ep with socketId := ctx.sid, joinedAt := now } ∧
      (∃ a ∈ (handleJoinMeeting ctx mid dn (some m) dbFail now rooms).trace,
        Act.isParticipantReconnected a = true) ∧
      (∀ a ∈ (handleJoinMeeting ctx mid dn (some m) dbFail now rooms).trace,
        Act.isParticipantJoined a = false) := by
  rw [handleJoin_reconnect_eq ctx mid dn m dbFail now rooms ep hmid hdn
    hep hne]
  have hsub : ∀ q ∈ ((joinRoomView rooms mid).participants.filter
      (fun q => q.socketId ≠ ep.socketId)), ¬ q.socketId = ctx.sid :=
    fun q hq => hsid q (List.mem_of_mem_filter hq)
  have hadd : Room.addParticipant
      (Room.removeParticipant (joinRoomView rooms mid) ep.socketId).2
      { ep with socketId := ctx.sid, joinedAt := now } =
      { meetingId := (joinRoomView rooms mid).meetingId,
        participants :=
          (joinRoomView rooms mid).participants.filter
            (fun q => q.socketId ≠ ep.socketId)
          ++ [{ ep with socketId := ctx.sid, joinedAt := now }] } := by
    unfold Room.removeParticipant
    exact Room.addParticipant_of_fresh _ _ (fun q hq => hsub q hq)
  refine ⟨_, Registry.lookup_set _ _ _, ?_, ?_, ?_, ?_⟩
  · rw [hadd]
    unfold Room.getParticipant
    rw [List.find?_append]
    have h1 : List.find? (fun q => q.socketId = ep.socketId)
        ((joinRoomView rooms mid).participants.filter
          (fun q => q.socketId ≠ ep.socketId)) = none := by
      rw [List.find?_eq_none]
      intro x hx
      have hx2 := List.of_mem_filter hx
      simp only [ne_eq, decide_eq_true_eq] at hx2
      simpa using hx2
    rw [h1, Option.none_or]
    rw [List.find?_cons_of_neg _ (by
      simp only [decide_eq_true_eq]
      exact fun h => hne h.symm)]
    rfl
  · rw [hadd]
    unfold Room.getParticipant
    exact List.find?_sid_append_last _ _ _ hsub rfl
  · exact ⟨Act.emit (.participantReconnected mid ctx.sid
      (viewFull { ep with socketId := ctx.sid, joinedAt := now })),
      by simp, by simp [Act.isParticipantReconnected]⟩
  · intro a ha
    simp only [List.mem_cons] at ha
    rcases ha with h | h | h | h | h <;> first
      | (subst h; rfl)
      | simp at h

/-- C6 witness: `u1` (socket `s1`) rejoins room `R` from socket `s9`.
-/
theorem C6_reconnect_witness :
    ∃ room2,
      Registry.lookup
        (handleJoinMeeting ⟨"s9", "u1", none⟩ "R" "Alice2" (some ⟨"u2"⟩)
          false 9
          [("R", ⟨"R", [⟨"s1", "u1", "Alice", true, true, true, false, 1⟩]⟩)]
        ).rooms "R" = some room2 ∧
      Room.getParticipant room2 "s1" = none ∧
      Room.getParticipant room2 "s9"
        = some ⟨"s9", "u1", "Alice", true, true, true, false, 9⟩ ∧
      (∃ a ∈ (handleJoinMeeting ⟨"s9", "u1", none⟩ "R" "Alice2"
          (some ⟨"u2"⟩) false 9
          [("R", ⟨"R", [⟨"s1", "u1", "Alice", true, true, true, false, 1⟩]⟩)]
        ).trace, Act.isParticipantReconnected a = true) ∧
      (∀ a ∈ (handleJoinMeeting ⟨"s9", "u1", none⟩ "R" "Alice2"
          (some ⟨"u2"⟩) false 9
          [("R", ⟨"R", [⟨"s1", "u1", "Alice", true, true, true, false, 1⟩]⟩)]
        ).trace, Act.isParticipantJoined a = false) :=
  C6_reconnect ⟨"s9", "u1", none⟩ "R" "Alice2" ⟨"u2"⟩ false 9
    [("R", ⟨"R", [⟨"s1", "u1", "Alice", true, true, true, false, 1⟩]⟩)]
    ⟨"s1", "u1", "Alice", true, true, true, false, 1⟩
    (by decide) (by decide) (by decide) (by decide) (by decide)

/-- C7: joining again with the same (roomId, connectionId) right after
a successful fresh join leaves the registry and the socket context
exactly as they were, and the second call's entire trace is one
`joined-meeting` emission to the caller — an event identical (same
self view, same other-participants views) to the one emitted by the
first call — with no broadcast to other members. -/
theorem C7_idempotent_rejoin (ctx : SocketCtx) (mid dn : String)
    (m : MeetingRec) (now now2 : Nat) (dbFail2 : Bool) (rooms : Registry)
    (hmid : ¬ mid = "") (hdn : ¬ dn = "")
    (hfresh : Room.getParticipantByUserId (joinRoomView rooms mid)
      ctx.userId = none)
    (hsid : ∀ q ∈ (joinRoomView rooms mid).participants,
      ¬ q.socketId = ctx.sid) :
    (handleJoinMeeting
        (handleJoinMeeting ctx mid dn (some m) false now rooms).ctx
        mid dn (some m) dbFail2 now2
        (handleJoinMeeting ctx mid dn (some m) false now rooms).rooms).rooms
      = (handleJoinMeeting ctx mid dn (some m) false now rooms).rooms ∧
    (handleJoinMeeting
        (handleJoinMeeting ctx mid dn (some m) false now rooms).ctx
        mid dn (some m) dbFail2 now2
        (handleJoinMeeting ctx mid dn (some m) false now rooms).rooms).ctx
      = (handleJoinMeeting ctx mid dn (some m) false now rooms).ctx ∧
    ∃ self others,
      (handleJoinMeeting
          (handleJoinMeeting ctx mid dn (some m) false now rooms).ctx
          mid dn (some m) dbFail2 now2
          (handleJoinMeeting ctx mid dn (some m) false now rooms).rooms).trace
        = [Act.emit (.joinedMeeting ctx.sid mid self others)] ∧
      Act.emit (.joinedMeeting ctx.sid mid self others)
        ∈ (handleJoinMeeting ctx mid dn (some m) false now rooms).trace := by
  have h1 := handleJoin_fresh_eq ctx mid dn m false now rooms hmid hdn hfresh
  simp only [Bool.false_eq_true, if_false] at h1
  have haddP := Room.addParticipant_of_fresh (joinRoomView rooms mid)
    (freshParticipant ctx dn m (joinRoomView rooms mid) now)
    (fun q hq => hsid q hq)
  have hview1 : joinRoomView
      (Registry.set (joinRooms1 rooms mid) mid
        (Room.addParticipant (joinRoomView rooms mid)
          (freshParticipant ctx dn m (joinRoomView rooms mid) now))) mid
      = Room.addParticipant (joinRoomView rooms mid)
          (freshParticipant ctx dn m (joinRoomView rooms mid) now) := by
    unfold joinRoomView
    rw [Registry.lookup_set]
  have hrooms1 : joinRooms1
      (Registry.set (joinRooms1 rooms mid) mid
        (Room.addParticipant (joinRoomView rooms mid)
          (freshParticipant ctx dn m (joinRoomView rooms mid) now))) mid
      = Registry.set (joinRooms1 rooms mid) mid
          (Room.addParticipant (joinRoomView rooms mid)
            (freshParticipant ctx dn m (joinRoomView rooms mid) now)) := by
    unfold joinRooms1
    rw [Registry.lookup_set]
  have hPid : Room.getParticipantByUserId
      (Room.addParticipant (joinRoomView rooms mid)
        (freshParticipant ctx dn m (joinRoomView rooms mid) now))
      ctx.userId
      = some (freshParticipant ctx dn m (joinRoomView rooms mid) now) := by
    rw [haddP]
    unfold Room.getParticipantByUserId
    rw [List.find?_append]
    have hf : List.find? (fun q => q.userId = ctx.userId)
        (joinRoomView rooms mid).participants = none := hfresh
    rw [hf, Option.none_or]
    rw [List.find?_cons_of_pos _ (by simp [freshParticipant])]
  have hPid2 : Room.getParticipantByUserId
      (joinRoomView
        (Registry.set (joinRooms1 rooms mid) mid
          (Room.addParticipant (joinRoomView rooms mid)
            (freshParticipant ctx dn m (joinRoomView rooms mid) now))) mid)
      ({ ctx with currentMeetingId := some mid } : SocketCtx).userId
      = some (freshParticipant ctx dn m (joinRoomView rooms mid) now) := by
    rw [hview1]
    exact hPid
  have h2 := handleJoin_rejoin_eq
    { ctx with currentMeetingId := some mid } mid dn m dbFail2 now2
    (Registry.set (joinRooms1 rooms mid) mid
      (Room.addParticipant (joinRoomView rooms mid)
        (freshParticipant ctx dn m (joinRoomView rooms mid) now)))
    (freshParticipant ctx dn m (joinRoomView rooms mid) now)
    hmid hdn hPid2 rfl
  rw [h1]
  simp only []
  rw [h2, hrooms1]
  refine ⟨rfl, rfl, viewBasic (freshParticipant ctx dn m
      (joinRoomView rooms mid) now),
    ((Room.getAllParticipants (Room.addParticipant (joinRoomView rooms mid)
        (freshParticipant ctx dn m (joinRoomView rooms mid) now))).filter
      (fun p => p.socketId ≠ ctx.sid)).map viewFull, ?_, ?_⟩
  · rw [hview1]
  · simp [List.mem_append]

/-- C7 witness: `u1` joins the empty registry and immediately re-sends
the same join from the same socket. -/
theorem C7_idempotent_rejoin_witness :
    (handleJoinMeeting
        (handleJoinMeeting ⟨"s1", "u1", none⟩ "R" "Alice" (some ⟨"u1"⟩)
          false 1 []).ctx
        "R" "Alice" (some ⟨"u1"⟩) false 5
        (handleJoinMeeting ⟨"s1", "u1", none⟩ "R" "Alice" (some ⟨"u1"⟩)
          false 1 []).rooms).rooms
      = (handleJoinMeeting ⟨"s1", "u1", none⟩ "R" "Alice" (some ⟨"u1"⟩)
          false 1 []).rooms ∧
    (handleJoinMeeting
        (handleJoinMeeting ⟨"s1", "u1", none⟩ "R" "Alice" (some ⟨"u1"⟩)
          false 1 []).ctx
        "R" "Alice" (some ⟨"u1"⟩) false 5
        (handleJoinMeeting ⟨"s1", "u1", none⟩ "R" "Alice" (some ⟨"u1"⟩)
          false 1 []).rooms).ctx
      = (handleJoinMeeting ⟨"s1", "u1", none⟩ "R" "Alice" (some ⟨"u1"⟩)
          false 1 []).ctx ∧
    ∃ self others,
      (handleJoinMeeting
          (handleJoinMeeting ⟨"s1", "u1", none⟩ "R" "Alice" (some ⟨"u1"⟩)
            false 1 []).ctx
          "R" "Alice" (some ⟨"u1"⟩) false 5
          (handleJoinMeeting ⟨"s1", "u1", none⟩ "R" "Alice" (some ⟨"u1"⟩)
            false 1 []).rooms).trace
        = [Act.emit (.joinedMeeting "s1" "R" self others)] ∧
      Act.emit (.joinedMeeting "s1" "R" self others)
        ∈ (handleJoinMeeting ⟨"s1", "u1", none⟩ "R" "Alice" (some ⟨"u1"⟩)
            false 1 []).trace :=
  C7_idempotent_rejoin ⟨"s1", "u1", none⟩ "R" "Alice" ⟨"u1"⟩ 1 5 false []
    (by decide) (by decide) (by decide)
    (by intro q hq; simp [joinRoomView, Registry.lookup] at hq)

/-- C8, counterexample.  After `u1` joins `R` and `u2`'s join fails at
the persistence write, `u2`'s participant record was rolled back (it is
not a member of `R`) but its socket kept the room association; `u2`'s
offer to `s1` is then forwarded rather than rejected, so senders are
not validated for membership in the room's participant set. -/
theorem C8_counterexample :
    ((Registry.lookup
        (handleJoinMeeting ⟨"s2", "u2", none⟩ "R" "Bob" (some ⟨"u2"⟩)
          true 2
          (handleJoinMeeting ⟨"s1", "u1", none⟩ "R" "Alice" (some ⟨"u2"⟩)
            false 1 []).rooms).rooms "R").map
      (fun r => Room.getParticipant r "s2") = some none) ∧
    (handleJoinMeeting ⟨"s2", "u2", none⟩ "R" "Bob" (some ⟨"u2"⟩)
        true 2
        (handleJoinMeeting ⟨"s1", "u1", none⟩ "R" "Alice" (some ⟨"u2"⟩)
          false 1 []).rooms).ctx.currentMeetingId = some "R" ∧
    handleOffer
        (handleJoinMeeting ⟨"s2", "u2", none⟩ "R" "Bob" (some ⟨"u2"⟩)
          true 2
          (handleJoinMeeting ⟨"s1", "u1", none⟩ "R" "Alice" (some ⟨"u2"⟩)
            false 1 []).rooms).ctx
        "s1" "sdp-payload"
        (handleJoinMeeting ⟨"s2", "u2", none⟩ "R" "Bob" (some ⟨"u2"⟩)
          true 2
          (handleJoinMeeting ⟨"s1", "u1", none⟩ "R" "Alice" (some ⟨"u2"⟩)
            false 1 []).rooms).rooms
      = [Act.emit (.relayMsg .offer "s1" "s2" "sdp-payload")] := by
  decide

/-- C8, amended: each relay handler validates only that the sender's
socket has a current room association and that the associated room
exists in the registry — never that the sender (or the target) is in
the room's participant set.  With no association it rejects with the
`Not in a meeting` error and forwards nothing; with an association but
an empty target or payload it rejects with the kind-specific
`Invalid … data` error and forwards nothing; with an association to an
unregistered room it rejects with `Room not found`; otherwise it emits
exactly one forward of the unmodified payload to the named target,
annotated with the sender's connection id, and sends nothing to the
sender. -/
theorem C8_relay_contract (kind : RelayKind) (ctx : SocketCtx)
    (target payload : String) (rooms : Registry) :
    (ctx.currentMeetingId = none →
      handleRelay kind ctx target payload rooms
        = [Act.emit (.errorEvt ctx.sid "Not in a meeting")]) ∧
    (∀ mid, ctx.currentMeetingId = some mid →
      (target = "" ∨ payload = "") →
      handleRelay kind ctx target payload rooms
        = [Act.emit (.errorEvt ctx.sid (relayErrorMsg kind))]) ∧
    (∀ mid, ctx.currentMeetingId = some mid →
      ¬ target = "" → ¬ payload = "" →
      Registry.lookup rooms mid = none →
      handleRelay kind ctx target payload rooms
        = [Act.emit (.errorEvt ctx.sid "Room not found")]) ∧
    (∀ mid room, ctx.currentMeetingId = some mid →
      ¬ target = "" → ¬ payload = "" →
      Registry.lookup rooms mid = some room →
      handleRelay kind ctx target payload rooms
        = [Act.emit (.relayMsg kind target ctx.sid payload)]) := by
  refine ⟨?_, ?_, ?_, ?_⟩
  · intro h
    unfold handleRelay
    simp only [h]
  · intro mid h hempty
    unfold handleRelay
    simp only [h]
    rw [if_pos hempty]
  · intro mid h ht hp hlk
    unfold handleRelay
    simp only [h]
    rw [if_neg (by tauto)]
    simp only [hlk]
  · intro mid room h ht hp hlk
    unfold handleRelay
    simp only [h]
    rw [if_neg (by tauto)]
    simp only [hlk]

/-- C8 witness: a member of a registered room relays an ICE candidate
to a named target; only the forward is emitted. -/
theorem C8_relay_contract_witness :
    handleRelay .ice ⟨"s1", "u1", some "R"⟩ "s2" "cand"
        [("R", ⟨"R", [⟨"s1", "u1", "Alice", true, true, true, false, 1⟩]⟩)]
      = [Act.emit (.relayMsg .ice "s2" "s1" "cand")] :=
  (C8_relay_contract .ice ⟨"s1", "u1", some "R"⟩ "s2" "cand"
      [("R", ⟨"R", [⟨"s1", "u1", "Alice", true, true, true, false, 1⟩]⟩)]
    ).2.2.2 "R"
    ⟨"R", [⟨"s1", "u1", "Alice", true, true, true, false, 1⟩]⟩
    (by decide) (by decide) (by decide) (by decide)

theorem applyMediaPatch_attrPatch (attr : MediaAttr) (b : Bool)
    (q : ParticipantInfo) :
    applyMediaPatch q (attrPatch attr b) = mediaSet attr b q := by
  cases attr <;> rfl

/-- C9: a toggle by a member of a registered room replaces the room's
participant list by the pointwise map that rewrites only the sender's
entry — and that entry only by `mediaSet`, which sets the one toggled
flag and keeps every other field (identity, host flag, the other two
media flags, timestamp) — while the single broadcast carries exactly
the sender's ids, the changed attribute and its new value. -/
theorem C9_toggle_frame (attr : MediaAttr) (ctx : SocketCtx)
    (enabled : Bool) (mid : String) (rooms : Registry) (room : Room)
    (p : ParticipantInfo)
    (hcm : ctx.currentMeetingId = some mid)
    (hlk : Registry.lookup rooms mid = some room)
    (hp : Room.getParticipant room ctx.sid = some p) :
    (∃ room2,
      Registry.lookup (handleToggleMedia attr ctx enabled rooms).1 mid
        = some room2 ∧
      room2.participants = room.participants.map
        (fun q => if q.socketId = ctx.sid
          then mediaSet attr enabled q else q) ∧
      (handleToggleMedia attr ctx enabled rooms).2
        = [Act.emit (.mediaChanged mid ctx.sid p.userId attr enabled)]) ∧
    (∀ q : ParticipantInfo,
      (mediaSet attr enabled q).socketId = q.socketId ∧
      (mediaSet attr enabled q).userId = q.userId ∧
      (mediaSet attr enabled q).displayName = q.displayName ∧
      (mediaSet attr enabled q).isHost = q.isHost ∧
      (mediaSet attr enabled q).joinedAt = q.joinedAt ∧
      (attr = .audio →
        (mediaSet attr enabled q).audioEnabled = enabled ∧
        (mediaSet attr enabled q).videoEnabled = q.videoEnabled ∧
        (mediaSet attr enabled q).screenShareEnabled
          = q.screenShareEnabled) ∧
      (attr = .video →
        (mediaSet attr enabled q).videoEnabled = enabled ∧
        (mediaSet attr enabled q).audioEnabled = q.audioEnabled ∧
        (mediaSet attr enabled q).screenShareEnabled
          = q.screenShareEnabled) ∧
      (attr = .screen →
        (mediaSet attr enabled q).screenShareEnabled = enabled ∧
        (mediaSet attr enabled q).audioEnabled = q.audioEnabled ∧
        (mediaSet attr enabled q).videoEnabled = q.videoEnabled)) := by
  constructor
  · unfold handleToggleMedia
    simp only [hcm, hlk]
    unfold Room.updateParticipantMedia
    have hp2 : room.participants.find?
        (fun q => decide (q.socketId = ctx.sid)) = some p := hp
    simp only [hp2]
    refine ⟨_, Registry.lookup_set _ _ _, ?_, ?_⟩
    · simp only []
      apply List.map_congr_left
      intro q hq
      by_cases hqs : q.socketId = ctx.sid
      · rw [if_pos hqs, if_pos hqs, applyMediaPatch_attrPatch]
      · rw [if_neg hqs, if_neg hqs]
    · have : (applyMediaPatch p (attrPatch attr enabled)).userId
          = p.userId := by
        cases attr <;> rfl
      simp only [this]
  · intro q
    cases attr <;>
      refine ⟨rfl, rfl, rfl, rfl, rfl, ?_, ?_, ?_⟩ <;>
        intro h <;> first
          | exact ⟨rfl, rfl, rfl⟩
          | simp at h

/-- C9 witness: `u2` toggles video off in a two-member room. -/
theorem C9_toggle_frame_witness :
    (∃ room2,
      Registry.lookup (handleToggleMedia .video ⟨"s2", "u2", some "R"⟩
          false
          [("R", ⟨"R", [⟨"s1", "u1", "Alice", true, true, true, false, 1⟩,
            ⟨"s2", "u2", "Bob", false, true, true, false, 2⟩]⟩)]).1 "R"
        = some room2 ∧
      room2.participants =
        [⟨"s1", "u1", "Alice", true, true, true, false, 1⟩,
         ⟨"s2", "u2", "Bob", false, true, true, false, 2⟩].map
          (fun q => if q.socketId = "s2"
            then mediaSet .video false q else q) ∧
      (handleToggleMedia .video ⟨"s2", "u2", some "R"⟩ false
          [("R", ⟨"R", [⟨"s1", "u1", "Alice", true, true, true, false, 1⟩,
            ⟨"s2", "u2", "Bob", false, true, true, false, 2⟩]⟩)]).2
        = [Act.emit (.mediaChanged "R" "s2" "u2" .video false)]) ∧
    (∀ q : ParticipantInfo,
      (mediaSet .video false q).socketId = q.socketId ∧
      (mediaSet .video false q).userId = q.userId ∧
      (mediaSet .video false q).displayName = q.displayName ∧
      (mediaSet .video false q).isHost = q.isHost ∧
      (mediaSet .video false q).joinedAt = q.joinedAt ∧
      (MediaAttr.video = MediaAttr.audio →
        (mediaSet .video false q).audioEnabled = false ∧
        (mediaSet .video false q).videoEnabled = q.videoEnabled ∧
        (mediaSet .video false q).screenShareEnabled
          = q.screenShareEnabled) ∧
      (MediaAttr.video = MediaAttr.video →
        (mediaSet .video false q).videoEnabled = false ∧
        (mediaSet .video false q).audioEnabled = q.audioEnabled ∧
        (mediaSet .video false q).screenShareEnabled
          = q.screenShareEnabled) ∧
      (MediaAttr.video = MediaAttr.screen →
        (mediaSet .video false q).screenShareEnabled = false ∧
        (mediaSet .video false q).audioEnabled = q.audioEnabled ∧
        (mediaSet .video false q).videoEnabled = q.videoEnabled)) :=
  C9_toggle_frame .video ⟨"s2", "u2", some "R"⟩ false "R"
    [("R", ⟨"R", [⟨"s1", "u1", "Alice", true, true, true, false, 1⟩,
      ⟨"s2", "u2", "Bob", false, true, true, false, 2⟩]⟩)]
    ⟨"R", [⟨"s1", "u1", "Alice", true, true, true, false, 1⟩,
      ⟨"s2", "u2", "Bob", false, true, true, false, 2⟩]⟩
    ⟨"s2", "u2", "Bob", false, true, true, false, 2⟩
    (by decide) (by decide) (by decide)

/-- C10: a toggle whose sender holds a room association that resolves
to a registered room with no participant record for the sender's
connection id is a silent no-op — the registry (with no duplicate
room keys) is returned unchanged and no event of any kind, broadcast
or error, is emitted — in contrast with a sender holding no room
association at all, who receives the explicit `Not in a meeting`
error. -/
theorem C10_toggle_silent_noop (attr : MediaAttr) (ctx : SocketCtx)
    (enabled : Bool) (mid : String) (rooms : Registry) (room : Room)
    (hcm : ctx.currentMeetingId = some mid)
    (hlk : Registry.lookup rooms mid = some room)
    (hnone : Room.getParticipant room ctx.sid = none)
    (hnd : (rooms.map Prod.fst).Nodup) :
    handleToggleMedia attr ctx enabled rooms = (rooms, []) ∧
    (∀ ctx2 : SocketCtx, ctx2.currentMeetingId = none →
      handleToggleMedia attr ctx2 enabled rooms
        = (rooms, [Act.emit (.errorEvt ctx2.sid "Not in a meeting")])) := by
  constructor
  · unfold handleToggleMedia
    simp only [hcm, hlk]
    unfold Room.updateParticipantMedia
    have hn2 : room.participants.find?
        (fun q => decide (q.socketId = ctx.sid)) = none := hnone
    simp only [hn2]
    rw [Registry.set_self rooms mid room hlk hnd]
  · intro ctx2 h2
    unfold handleToggleMedia
    simp only [h2]

/-- C10 witness: `s9` holds an association to registered room `R` but
has no participant record there. -/
theorem C10_toggle_silent_noop_witness :
    handleToggleMedia .audio ⟨"s9", "u9", some "R"⟩ false
        [("R", ⟨"R", [⟨"s1", "u1", "Alice", true, true, true, false, 1⟩]⟩)]
      = ([("R", ⟨"R", [⟨"s1", "u1", "Alice", true, true, true, false, 1⟩]⟩)],
         []) ∧
    (∀ ctx2 : SocketCtx, ctx2.currentMeetingId = none →
      handleToggleMedia .audio ctx2 false
          [("R", ⟨"R", [⟨"s1", "u1", "Alice", true, true, true, false, 1⟩]⟩)]
        = ([("R",
              ⟨"R", [⟨"s1", "u1", "Alice", true, true, true, false, 1⟩]⟩)],
           [Act.emit (.errorEvt ctx2.sid "Not in a meeting")])) :=
  C10_toggle_silent_noop .audio ⟨"s9", "u9", some "R"⟩ false "R"
    [("R", ⟨"R", [⟨"s1", "u1", "Alice", true, true, true, false, 1⟩]⟩)]
    ⟨"R", [⟨"s1", "u1", "Alice", true, true, true, false, 1⟩]⟩
    (by decide) (by decide) (by decide) (by simp)
